import Mathlib

/-!
Verification of the nearest-result verifier and the deterministic random
source of `s2testing.h` (S2 geometry test-support kernel).

The verifier `CheckDistanceResults` and its per-direction helper
`S2::internal::CheckResultSet` are embedded below.  Angular distances
(`S1Angle`, stored in radians) are modelled as rationals; the verifier only
subtracts and order-compares distances, so the rational model is faithful
for every property considered here.  The gtest macros `EXPECT_TRUE` /
`EXPECT_EQ` used by `CheckResultSet` report a test failure through the test
framework; they do not alter the return value of the function.  The
embedding therefore records their outcomes in separate fields (`sortedOk`,
`noDupOk`) next to the returned boolean (`result`) and the diagnostic lines
printed by the coverage loop (`diags`).
-/

namespace S2Check

variable {Id : Type} [DecidableEq Id]

/-- Outcome of one direction of the check (`S2::internal::CheckResultSet`):
the returned boolean `result`, the two gtest expectation outcomes
(`EXPECT_TRUE(std::is_sorted(...))` and the duplicate check
`EXPECT_EQ(x_set.size(), x.size())`), and the diagnostic lines printed by
the coverage loop, in loop order. -/
structure CheckOutcome (Id : Type) where
  result : Bool
  sortedOk : Bool
  noDupOk : Bool
  diags : List (String × ℚ × Id)
deriving DecidableEq

/-- Number of occurrences of the pair `p` in `x` (`std::count(x.begin(),
x.end(), p)`). -/
def countEq (x : List (ℚ × Id)) (p : ℚ × Id) : Nat :=
  x.countP (fun q => decide (q = p))

/-- `std::is_sorted(x.begin(), x.end(), CompareFirst)`: no element has a
first component strictly smaller than that of its predecessor. -/
def isSortedByFirst : List (ℚ × Id) → Bool
  | [] => true
  | [_] => true
  | a :: b :: t => !(decide (b.1 < a.1)) && isSortedByFirst (b :: t)

/-- Size of `std::set<std::pair<S1Angle, Id>> x_set(x.begin(), x.end())`:
the number of distinct (distance, id) pairs in `x`. -/
def distinctCount (x : List (ℚ × Id)) : Nat := x.dedup.length

/-- The C++ comparison `x.size() < max_size`: `std::vector::size_type`
(64-bit `size_t`, holding the actual size `n`) compared with `int`, so
`max_size` is converted to an unsigned 64-bit value (`max_size mod 2^64`). -/
def sizeLtMaxSize (n : Nat) (maxSize : Int) : Bool :=
  decide (n < ((maxSize % 2 ^ 64).toNat))

/-- The coverage limit computed by `CheckResultSet`: starts at
`S1Angle::Zero()`; if `x.size() < max_size` it becomes
`max_distance - max_pruning_error`; otherwise, if `x` is non-empty, it
becomes `x.back().first - max_error - max_pruning_error`. -/
def limitFor (x : List (ℚ × Id)) (maxSize : Int)
    (maxDistance maxError maxPruningError : ℚ) : ℚ :=
  if sizeLtMaxSize x.length maxSize then maxDistance - maxPruningError
  else
    match x.getLast? with
    | some last => last.1 - maxError - maxPruningError
    | none => 0

/-- `S2::internal::CheckResultSet(x, y, max_size, max_distance, max_error,
max_pruning_error, label)`: checks sortedness and absence of duplicates via
gtest expectations (recorded in `sortedOk` / `noDupOk`, without influence
on `result`), then returns true iff every pair of `y` whose distance is
strictly below the coverage limit occurs exactly once in `x`, printing a
diagnostic line for each violating pair. -/
def CheckResultSet (x y : List (ℚ × Id)) (maxSize : Int)
    (maxDistance maxError maxPruningError : ℚ) (label : String) :
    CheckOutcome Id :=
  let limit := limitFor x maxSize maxDistance maxError maxPruningError
  { result := y.all (fun p => !(decide (p.1 < limit) && decide (countEq x p ≠ 1)))
    sortedOk := isSortedByFirst x
    noDupOk := decide (distinctCount x = x.length)
    diags := (y.filter
        (fun p => decide (p.1 < limit) && decide (countEq x p ≠ 1))).map
      (fun p => (label, p.1, p.2)) }

/-- `kMaxPruningError = S1Angle::Radians(1e-15)`. -/
def kMaxPruningError : ℚ := 1 / 10 ^ 15

/-- Outcome of the bidirectional check `CheckDistanceResults`: the returned
boolean, the concatenated diagnostics of both directions (both directions
are always evaluated: the source combines them with `&`, not `&&`), and the
two per-direction outcomes. -/
structure FullOutcome (Id : Type) where
  result : Bool
  diags : List (String × ℚ × Id)
  missing : CheckOutcome Id
  extra : CheckOutcome Id
deriving DecidableEq

/-- `CheckDistanceResults(expected, actual, max_size, max_distance,
max_error)`: conjunction (via non-short-circuiting `&`) of the
actual-vs-expected direction (label "Missing", pruning tolerance
`kMaxPruningError`) and the expected-vs-actual direction (label "Extra",
pruning tolerance zero). -/
def CheckDistanceResults (expected actual : List (ℚ × Id)) (maxSize : Int)
    (maxDistance maxError : ℚ) : FullOutcome Id :=
  let m := CheckResultSet actual expected maxSize maxDistance maxError
    kMaxPruningError "Missing"
  let e := CheckResultSet expected actual maxSize maxDistance maxError
    0 "Extra"
  { result := m.result && e.result
    diags := m.diags ++ e.diags
    missing := m
    extra := e }

end S2Check

namespace S2Random

/-!
Modelled from the spec: the implementation of `S2Testing::Random` lives in
`s2testing.cc`, which is not among the sources; only its interface is
declared in `s2testing.h`.  Per spec sections 3 and 4.1 the generator holds
a single internal state, fully re-initialized by `Reset(seed)` from a
32-bit signed seed with no history retained, and every draw is a
deterministic mutation of that state.  The underlying primitive generator
(`random()`) is modelled as a concrete linear-congruential state
transition; `Rand64` and `RandDouble` combine two underlying draws as the
spec describes, `Uniform` reduces a draw to `[0, n)`, `OneIn n` is
`Uniform n == 0`, and `Skewed max_log` picks a bit width uniformly in
`[0, max_log]` and then a value of that width.
-/

/-- Modelled from the spec: the single internal generator state, mutated in
place by every draw. -/
structure State where
  s : Nat
deriving DecidableEq

/-- Modelled from the spec: `Reset(seed)` fully re-initializes the state of
the instance from the 32-bit signed seed; no part of the prior state
survives. -/
def reset (_st : State) (seed : Int) : State :=
  { s := (seed % 2 ^ 32).toNat }

/-- Modelled from the spec: one draw of the underlying primitive generator
(value, next state). -/
def nextRaw (s : Nat) : Nat × Nat :=
  let s1 := (1103515245 * s + 12345) % 2 ^ 31
  (s1, s1)

/-- `Rand32()`: a 32-bit draw derived from the underlying generator. -/
def rand32 (st : State) : Nat × State :=
  let (v, s1) := nextRaw st.s
  (v % 2 ^ 32, { s := s1 })

/-- `Rand64()`: combines two 32-bit draws into a 64-bit value. -/
def rand64 (st : State) : Nat × State :=
  let (hi, st1) := rand32 st
  let (lo, st2) := rand32 st1
  (hi * 2 ^ 32 + lo, st2)

/-- `RandDouble()`: a multiple of `2^-53` in `[0, 1)`, with its 53 bits
assembled from two underlying draws. -/
def randDouble (st : State) : ℚ × State :=
  let (v, st1) := rand64 st
  ((v % 2 ^ 53 : ℕ) / (2 ^ 53 : ℚ), st1)

/-- `Uniform(n)`: an integer in `[0, n)` reduced from a 32-bit draw
(`n <= 0` is a usage error; the model returns 0 there). -/
def uniform (st : State) (n : Int) : Int × State :=
  if n ≤ 0 then (0, st)
  else
    let (v, st1) := rand32 st
    ((v : Int) % n, st1)

/-- `UniformDouble(min, limit) = min + RandDouble() * (limit - min)`. -/
def uniformDouble (st : State) (min limit : ℚ) : ℚ × State :=
  let (d, st1) := randDouble st
  (min + d * (limit - min), st1)

/-- `OneIn(n)`: true with probability `1/n`, implemented as
`Uniform(n) == 0`. -/
def oneIn (st : State) (n : Int) : Bool × State :=
  let (v, st1) := uniform st n
  (decide (v = 0), st1)

/-- `Skewed(max_log)`: pick `base` uniformly from `[0, max_log]`, then
return `base` random bits. -/
def skewed (st : State) (maxLog : Int) : Int × State :=
  let (base, st1) := uniform st (maxLog + 1)
  let (v, st2) := rand32 st1
  ((v % 2 ^ base.toNat : ℕ), st2)

/-- One draw call of the random source interface. -/
inductive Call where
  | rand32
  | rand64
  | randDouble
  | uniform (n : Int)
  | uniformDouble (min limit : ℚ)
  | oneIn (n : Int)
  | skewed (maxLog : Int)
deriving DecidableEq

/-- The value a draw call returns. -/
inductive Value where
  | nat (n : Nat)
  | int (n : Int)
  | rat (q : ℚ)
  | bool (b : Bool)
deriving DecidableEq

/-- Dispatch one draw call on the current state. -/
def step (st : State) : Call → Value × State
  | .rand32 => let (v, st1) := rand32 st; (.nat v, st1)
  | .rand64 => let (v, st1) := rand64 st; (.nat v, st1)
  | .randDouble => let (v, st1) := randDouble st; (.rat v, st1)
  | .uniform n => let (v, st1) := uniform st n; (.int v, st1)
  | .uniformDouble a b => let (v, st1) := uniformDouble st a b; (.rat v, st1)
  | .oneIn n => let (v, st1) := oneIn st n; (.bool v, st1)
  | .skewed k => let (v, st1) := skewed st k; (.int v, st1)

/-- The sequence of values returned by a sequence of draw calls. -/
def run (st : State) : List Call → List Value
  | [] => []
  | c :: cs =>
    let (v, st1) := step st c
    v :: run st1 cs

end S2Random

namespace S2Check

variable {Id : Type} [DecidableEq Id]

/-- The returned boolean of one direction holds iff every reference pair
strictly below the coverage limit occurs exactly once in the candidate
sequence. -/
theorem checkResultSet_result_iff (x y : List (ℚ × Id)) (maxSize : Int)
    (maxDistance maxError maxPruningError : ℚ) (label : String) :
    (CheckResultSet x y maxSize maxDistance maxError maxPruningError
        label).result = true ↔
      ∀ p ∈ y, p.1 < limitFor x maxSize maxDistance maxError maxPruningError →
        countEq x p = 1 := by
  simp only [CheckResultSet, List.all_eq_true, Bool.not_eq_true',
    Bool.and_eq_false_iff, decide_eq_false_iff_not, not_not, ne_eq]
  constructor
  · intro h p hp hlt
    rcases h p hp with h1 | h2
    · exact absurd hlt h1
    · exact h2
  · intro h p hp
    by_cases hlt : p.1 < limitFor x maxSize maxDistance maxError maxPruningError
    · exact Or.inr (h p hp hlt)
    · exact Or.inl hlt

/-- The returned boolean of the bidirectional check is the conjunction of
the two directional booleans. -/
theorem cdr_result (expected actual : List (ℚ × Id)) (ms : Int) (md me : ℚ) :
    (CheckDistanceResults expected actual ms md me).result
      = ((CheckResultSet actual expected ms md me kMaxPruningError
            "Missing").result
        && (CheckResultSet expected actual ms md me 0 "Extra").result) := rfl

/-- The diagnostics of the bidirectional check are those of both directions,
concatenated. -/
theorem cdr_diags (expected actual : List (ℚ × Id)) (ms : Int) (md me : ℚ) :
    (CheckDistanceResults expected actual ms md me).diags
      = (CheckResultSet actual expected ms md me kMaxPruningError
          "Missing").diags
        ++ (CheckResultSet expected actual ms md me 0 "Extra").diags := rfl

/-- A reference pair below the limit that does not occur exactly once in
the candidate sequence produces a diagnostic line. -/
theorem crs_diags_mem (x y : List (ℚ × Id)) (ms : Int) (md me pr : ℚ)
    (label : String) (p : ℚ × Id) (hp : p ∈ y)
    (hlt : p.1 < limitFor x ms md me pr) (hc : countEq x p ≠ 1) :
    (label, p.1, p.2) ∈ (CheckResultSet x y ms md me pr label).diags := by
  simp only [CheckResultSet, List.mem_map, List.mem_filter]
  exact ⟨p, ⟨hp, by simp [hlt, hc]⟩, rfl⟩

/-- Membership in a list is positivity of the occurrence count. -/
theorem mem_iff_countEq_pos (x : List (ℚ × Id)) (p : ℚ × Id) :
    p ∈ x ↔ 0 < countEq x p := by
  rw [countEq, List.countP_pos_iff]
  simp

/-- Claim C1: for a direction of `CheckDistanceResults` over candidate `x`
and reference `y` with a non-negative `max_size` (a C++ `int`, so below
`2^31`), the coverage limit is `max_distance - max_pruning_error` when
`|x| < max_size`, and `x.back().first - max_error - max_pruning_error` when
not size-limited but non-empty; the direction returns true iff every pair
of `y` with distance strictly below the limit occurs exactly once in `x`. -/
theorem claim_C1 (x y : List (ℚ × Id)) (maxSize : Int)
    (maxDistance maxError maxPruningError : ℚ) (label : String)
    (hms0 : 0 ≤ maxSize) (hms1 : maxSize < 2 ^ 31) :
    (((x.length : Int) < maxSize →
        limitFor x maxSize maxDistance maxError maxPruningError
          = maxDistance - maxPruningError) ∧
     (¬ (x.length : Int) < maxSize → ∀ hx : x ≠ [],
        limitFor x maxSize maxDistance maxError maxPruningError
          = (x.getLast hx).1 - maxError - maxPruningError) ∧
     ((CheckResultSet x y maxSize maxDistance maxError maxPruningError
          label).result = true ↔
       ∀ p ∈ y,
         p.1 < limitFor x maxSize maxDistance maxError maxPruningError →
           countEq x p = 1)) := by
  have hsz : sizeLtMaxSize x.length maxSize = true ↔
      (x.length : Int) < maxSize := by
    simp only [sizeLtMaxSize, decide_eq_true_eq]
    omega
  refine ⟨?_, ?_, checkResultSet_result_iff x y maxSize maxDistance maxError
    maxPruningError label⟩
  · intro h
    rw [limitFor, if_pos (hsz.mpr h)]
  · intro h hx
    rw [limitFor, if_neg (fun hc => h (hsz.mp hc)),
      List.getLast?_eq_getLast x hx]

/-- Witness for C1 at `x = [(1,"a")]`, `y = [(1,"a"),(2,"b")]`,
`max_size = 2`, `max_distance = 10`, `max_error = 0`,
`max_pruning_error = 1e-15`. -/
theorem claim_C1_witness :
    (0 : Int) ≤ 2 ∧ (2 : Int) < 2 ^ 31 ∧
    (((([((1 : ℚ), "a")] : List (ℚ × String)).length : Int) < 2 →
        limitFor [((1 : ℚ), "a")] 2 10 0 (1 / 10 ^ 15) = 10 - 1 / 10 ^ 15) ∧
     (¬ (([((1 : ℚ), "a")] : List (ℚ × String)).length : Int) < 2 →
        ∀ hx : ([((1 : ℚ), "a")] : List (ℚ × String)) ≠ [],
        limitFor [((1 : ℚ), "a")] 2 10 0 (1 / 10 ^ 15)
          = (([((1 : ℚ), "a")] : List (ℚ × String)).getLast hx).1
            - 0 - 1 / 10 ^ 15) ∧
     ((CheckResultSet [((1 : ℚ), "a")] [((1 : ℚ), "a"), ((2 : ℚ), "b")]
          2 10 0 (1 / 10 ^ 15) "Missing").result = true ↔
       ∀ p ∈ [((1 : ℚ), "a"), ((2 : ℚ), "b")],
         p.1 < limitFor [((1 : ℚ), "a")] 2 10 0 (1 / 10 ^ 15) →
           countEq [((1 : ℚ), "a")] p = 1)) :=
  ⟨by decide, by decide,
    claim_C1 [((1 : ℚ), "a")] [((1 : ℚ), "a"), ((2 : ℚ), "b")] 2 10 0
      (1 / 10 ^ 15) "Missing" (by decide) (by decide)⟩

/-- Claim C2: `CheckDistanceResults` returns the conjunction of the two
directional checks, both always evaluated with their diagnostics collected:
the actual-vs-expected direction is labelled "Missing" with pruning
tolerance `1e-15` radians, the expected-vs-actual direction is labelled
"Extra" with pruning tolerance zero. -/
theorem claim_C2 (expected actual : List (ℚ × Id)) (ms : Int) (md me : ℚ) :
    ((CheckDistanceResults expected actual ms md me).result
      = ((CheckResultSet actual expected ms md me (1 / 10 ^ 15)
            "Missing").result
        && (CheckResultSet expected actual ms md me 0 "Extra").result)) ∧
    ((CheckDistanceResults expected actual ms md me).diags
      = (CheckResultSet actual expected ms md me (1 / 10 ^ 15)
          "Missing").diags
        ++ (CheckResultSet expected actual ms md me 0 "Extra").diags) :=
  ⟨rfl, rfl⟩

/-- Counterexample to C3 as stated: `actual = [(1,"a"),(1,"a")]` contains a
duplicate pair (the duplicate expectation fails), yet with `expected = []`
and `max_size = 0` the returned boolean is true, not false. -/
theorem claim_C3_cex :
    (CheckDistanceResults ([] : List (ℚ × String)) [(1, "a"), (1, "a")]
        0 10 0).result = true ∧
    (CheckDistanceResults ([] : List (ℚ × String)) [(1, "a"), (1, "a")]
        0 10 0).missing.noDupOk = false := by
  constructor <;>
    norm_num [CheckDistanceResults, CheckResultSet, limitFor, sizeLtMaxSize,
      countEq, distinctCount, isSortedByFirst, kMaxPruningError, List.dedup,
      List.all_cons, List.countP_cons, List.countP_nil, List.getLast?]

/-- Claim C3, amended: a duplicated pair in `actual` makes the
duplicate-detection expectation of the "Missing" direction fail (a test
failure reported through the test framework), while the boolean returned
by `CheckDistanceResults` is computed only from the two coverage loops (and
so can still be true, as the counterexample shows). -/
theorem claim_C3_thm (expected : List (ℚ × Id)) (p : ℚ × Id) (ms : Int)
    (md me : ℚ) :
    (CheckDistanceResults expected [p, p] ms md me).missing.noDupOk = false ∧
    ((CheckDistanceResults expected [p, p] ms md me).result = true ↔
      ((∀ q ∈ expected, q.1 < limitFor [p, p] ms md me kMaxPruningError →
          countEq [p, p] q = 1) ∧
       (∀ q ∈ [p, p], q.1 < limitFor expected ms md me 0 →
          countEq expected q = 1))) := by
  constructor
  · show (decide (distinctCount [p, p] = ([p, p] : List (ℚ × Id)).length))
      = false
    have : distinctCount [p, p] = 1 := by
      simp [distinctCount, List.dedup_cons_of_mem]
    simp [this]
  · rw [cdr_result, Bool.and_eq_true, checkResultSet_result_iff,
      checkResultSet_result_iff]

/-- Counterexample to C4 as stated: `actual = [(2,"a"),(1,"b")]` is not
sorted by distance (the sortedness expectation fails), yet with
`expected = []` and `max_size = 0` the returned boolean is true, not
false. -/
theorem claim_C4_cex :
    isSortedByFirst [((2 : ℚ), "a"), ((1 : ℚ), "b")] = false ∧
    (CheckDistanceResults ([] : List (ℚ × String)) [(2, "a"), (1, "b")]
        0 10 0).result = true := by
  constructor <;>
    norm_num [CheckDistanceResults, CheckResultSet, limitFor, sizeLtMaxSize,
      countEq, distinctCount, isSortedByFirst, kMaxPruningError, List.dedup,
      List.all_cons, List.countP_cons, List.countP_nil, List.getLast?]

/-- Claim C4, amended: an `actual` sequence not sorted by ascending
distance makes the sortedness expectation of the "Missing" direction fail
(a test failure reported through the test framework), while the boolean
returned by `CheckDistanceResults` is computed only from the two coverage
loops (and so can still be true, as the counterexample shows). -/
theorem claim_C4_thm (expected actual : List (ℚ × Id)) (ms : Int)
    (md me : ℚ) (h : isSortedByFirst actual = false) :
    (CheckDistanceResults expected actual ms md me).missing.sortedOk
        = false ∧
    ((CheckDistanceResults expected actual ms md me).result = true ↔
      ((∀ q ∈ expected, q.1 < limitFor actual ms md me kMaxPruningError →
          countEq actual q = 1) ∧
       (∀ q ∈ actual, q.1 < limitFor expected ms md me 0 →
          countEq expected q = 1))) :=
  ⟨h, by rw [cdr_result, Bool.and_eq_true, checkResultSet_result_iff,
    checkResultSet_result_iff]⟩

/-- Witness for the amended C4 at `expected = []`,
`actual = [(2,"a"),(1,"b")]`, `max_size = 0`. -/
theorem claim_C4_witness :
    (CheckDistanceResults ([] : List (ℚ × String)) [(2, "a"), (1, "b")]
        0 10 0).missing.sortedOk = false ∧
    ((CheckDistanceResults ([] : List (ℚ × String)) [(2, "a"), (1, "b")]
        0 10 0).result = true ↔
      ((∀ q ∈ ([] : List (ℚ × String)),
          q.1 < limitFor [((2 : ℚ), "a"), ((1 : ℚ), "b")] 0 10 0
            kMaxPruningError → countEq [((2 : ℚ), "a"), ((1 : ℚ), "b")] q = 1) ∧
       (∀ q ∈ [((2 : ℚ), "a"), ((1 : ℚ), "b")],
          q.1 < limitFor ([] : List (ℚ × String)) 0 10 0 0 →
            countEq ([] : List (ℚ × String)) q = 1))) :=
  claim_C4_thm [] [(2, "a"), (1, "b")] 0 10 0 (by
    have h12 : (1 : ℚ) < 2 := by norm_num
    simp [isSortedByFirst, h12])

/-- Claim C5: for `expected = [(1°,"a"),(2°,"b"),(3°,"c")]`,
`actual = [(1°,"a"),(2°,"b")]`, `max_size = 2`, `max_distance = 10°`,
`max_error = 0`, the check returns true.  The angle `u` stands for one
degree in radians (`pi/180`, about `1.745e-2`, so above the `1e-15`
pruning tolerance as the hypothesis requires). -/
theorem claim_C5 (u : ℚ) (hu : 1 / 10 ^ 15 < u) :
    (CheckDistanceResults [(u, "a"), (2 * u, "b"), (3 * u, "c")]
        [(u, "a"), (2 * u, "b")] 2 (10 * u) 0).result = true := by
  have hba : ("b" : String) ≠ "a" := by decide
  have hab : ("a" : String) ≠ "b" := by decide
  have hca : ("c" : String) ≠ "a" := by decide
  have hcb : ("c" : String) ≠ "b" := by decide
  have hlimM : limitFor [(u, "a"), (2 * u, "b")] 2 (10 * u) 0
      kMaxPruningError = 2 * u - 1 / 10 ^ 15 := by
    simp [limitFor, sizeLtMaxSize, kMaxPruningError, List.getLast?]
  have hlimE : limitFor [(u, "a"), (2 * u, "b"), (3 * u, "c")] 2 (10 * u) 0 0
      = 3 * u := by
    simp [limitFor, sizeLtMaxSize, List.getLast?]
  have k1 : countEq [(u, "a"), (2 * u, "b")] (u, "a") = 1 := by
    simp [countEq, List.countP_cons, List.countP_nil, Prod.ext_iff, hba]
  have k2 : countEq [(u, "a"), (2 * u, "b")] (2 * u, "b") = 1 := by
    simp [countEq, List.countP_cons, List.countP_nil, Prod.ext_iff, hab]
  have k3 : countEq [(u, "a"), (2 * u, "b"), (3 * u, "c")] (u, "a") = 1 := by
    simp [countEq, List.countP_cons, List.countP_nil, Prod.ext_iff, hba, hca]
  have k4 : countEq [(u, "a"), (2 * u, "b"), (3 * u, "c")] (2 * u, "b")
      = 1 := by
    simp [countEq, List.countP_cons, List.countP_nil, Prod.ext_iff, hab, hcb]
  have c3 : ¬ (3 * u < 2 * u - 1 / 10 ^ 15) := by linarith
  rw [cdr_result, Bool.and_eq_true]
  constructor
  · rw [checkResultSet_result_iff, hlimM]
    intro p hp
    fin_cases hp
    · exact fun _ => k1
    · exact fun _ => k2
    · exact fun h => absurd h c3
  · rw [checkResultSet_result_iff, hlimE]
    intro p hp
    fin_cases hp
    · exact fun _ => k3
    · exact fun _ => k4

/-- Witness for C5 at degree unit `u = 1`. -/
theorem claim_C5_witness :
    1 / 10 ^ 15 < (1 : ℚ) ∧
    (CheckDistanceResults [((1 : ℚ), "a"), (2 * 1, "b"), (3 * 1, "c")]
        [((1 : ℚ), "a"), (2 * 1, "b")] 2 (10 * 1) 0).result = true :=
  ⟨by norm_num, claim_C5 1 (by norm_num)⟩

/-- Claim C6: for `expected = [(1°,"a"),(2°,"b"),(3°,"c")]`,
`actual = [(1°,"a"),(3°,"c")]`, `max_size = 2`, `max_distance = 10°`,
`max_error = 0`, the check returns false and a "Missing" diagnostic naming
the pair `(2°,"b")` is emitted.  The angle `u` stands for one degree in
radians (`pi/180`, above the `1e-15` pruning tolerance as the hypothesis
requires). -/
theorem claim_C6 (u : ℚ) (hu : 1 / 10 ^ 15 < u) :
    (CheckDistanceResults [(u, "a"), (2 * u, "b"), (3 * u, "c")]
        [(u, "a"), (3 * u, "c")] 2 (10 * u) 0).result = false ∧
    ("Missing", 2 * u, "b")
      ∈ (CheckDistanceResults [(u, "a"), (2 * u, "b"), (3 * u, "c")]
          [(u, "a"), (3 * u, "c")] 2 (10 * u) 0).diags := by
  have hab : ("a" : String) ≠ "b" := by decide
  have hcb : ("c" : String) ≠ "b" := by decide
  have hlimM : limitFor [(u, "a"), (3 * u, "c")] 2 (10 * u) 0
      kMaxPruningError = 3 * u - 1 / 10 ^ 15 := by
    simp [limitFor, sizeLtMaxSize, kMaxPruningError, List.getLast?]
  have k2 : countEq [(u, "a"), (3 * u, "c")] (2 * u, "b") = 0 := by
    simp [countEq, List.countP_cons, List.countP_nil, Prod.ext_iff, hab, hcb]
  have c2 : 2 * u < 3 * u - 1 / 10 ^ 15 := by linarith
  have hk : countEq [(u, "a"), (3 * u, "c")] (2 * u, "b") ≠ 1 := by
    rw [k2]; decide
  constructor
  · rw [cdr_result]
    have hm : (CheckResultSet [(u, "a"), (3 * u, "c")]
        [(u, "a"), (2 * u, "b"), (3 * u, "c")] 2 (10 * u) 0 kMaxPruningError
        "Missing").result = false := by
      rw [Bool.eq_false_iff]
      intro h
      have := (checkResultSet_result_iff _ _ _ _ _ _ _).mp h (2 * u, "b")
        (by simp)
      rw [hlimM] at this
      exact hk (this c2)
    rw [hm, Bool.false_and]
  · rw [cdr_diags]
    exact List.mem_append_left _
      (crs_diags_mem [(u, "a"), (3 * u, "c")]
        [(u, "a"), (2 * u, "b"), (3 * u, "c")] 2 (10 * u) 0 kMaxPruningError
        "Missing" (2 * u, "b") (by simp) (by rw [hlimM]; exact c2) hk)

/-- Witness for C6 at degree unit `u = 1`. -/
theorem claim_C6_witness :
    1 / 10 ^ 15 < (1 : ℚ) ∧
    ((CheckDistanceResults [((1 : ℚ), "a"), (2 * 1, "b"), (3 * 1, "c")]
        [((1 : ℚ), "a"), (3 * 1, "c")] 2 (10 * 1) 0).result = false ∧
     ("Missing", 2 * 1, "b")
       ∈ (CheckDistanceResults [((1 : ℚ), "a"), (2 * 1, "b"), (3 * 1, "c")]
           [((1 : ℚ), "a"), (3 * 1, "c")] 2 (10 * 1) 0).diags) :=
  ⟨by norm_num, claim_C6 1 (by norm_num)⟩

/-- Claim C8: with `max_size = 0` and an empty candidate sequence the
coverage limit stays at zero, so the direction returns true for every
reference sequence whose distances are all non-negative. -/
theorem claim_C8 (y : List (ℚ × Id)) (md me pr : ℚ) (label : String)
    (h : ∀ p ∈ y, 0 ≤ p.1) :
    limitFor ([] : List (ℚ × Id)) 0 md me pr = 0 ∧
    (CheckResultSet ([] : List (ℚ × Id)) y 0 md me pr label).result
      = true := by
  have hlim : limitFor ([] : List (ℚ × Id)) 0 md me pr = 0 := by
    simp [limitFor, sizeLtMaxSize]
  refine ⟨hlim, (checkResultSet_result_iff _ y 0 md me pr label).mpr ?_⟩
  intro p hp hlt
  rw [hlim] at hlt
  exact absurd hlt (not_lt.mpr (h p hp))

/-- Witness for C8 at `y = [(0,"x"),(5,"y")]`. -/
theorem claim_C8_witness :
    limitFor ([] : List (ℚ × String)) 0 1 0 0 = 0 ∧
    (CheckResultSet ([] : List (ℚ × String)) [(0, "x"), (5, "y")] 0 1 0 0
        "Missing").result = true :=
  claim_C8 [(0, "x"), (5, "y")] 1 0 0 "Missing" (by
    intro p hp
    fin_cases hp <;> norm_num)

/-- Claim C9: a negative `max_size` (a C++ `int`, so at least `-2^31`) is
converted to a very large unsigned value by the comparison
`x.size() < max_size`, so the uncapped branch is taken (for any physically
possible size, here bounded by `2^63`) and the limit is
`max_distance - max_pruning_error`: a negative cap behaves as unlimited. -/
theorem claim_C9 {Id : Type} [DecidableEq Id] (x : List (ℚ × Id)) (ms : Int)
    (md me pr : ℚ) (h0 : ms < 0) (h1 : -(2 ^ 31) ≤ ms)
    (h2 : x.length < 2 ^ 63) :
    sizeLtMaxSize x.length ms = true ∧ limitFor x ms md me pr = md - pr := by
  have hsz : sizeLtMaxSize x.length ms = true := by
    simp only [sizeLtMaxSize, decide_eq_true_eq]
    omega
  exact ⟨hsz, by rw [limitFor, if_pos hsz]⟩

/-- Witness for C9 at `x = [(5,"e")]`, `max_size = -1`. -/
theorem claim_C9_witness :
    sizeLtMaxSize ([((5 : ℚ), "e")] : List (ℚ × String)).length (-1)
        = true ∧
    limitFor ([((5 : ℚ), "e")] : List (ℚ × String)) (-1) 3 1 0 = 3 - 0 :=
  claim_C9 [((5 : ℚ), "e")] (-1) 3 1 0 (by decide) (by decide) (by decide)

/-- Counterexample to C10 as stated: with
`expected = [(1,"q"),(1,"r")]`, `max_size = 2`, `max_distance = 10`,
`max_error = 0`, duplicating the pair `(1,"a")` — which is absent from
`expected` — flips the returned boolean from false
(`actual = [(1,"a")]`) to true (`actual = [(1,"a"),(1,"a")]`), because the
extra element flips the size-cap branch and lowers the Missing-direction
coverage limit. -/
theorem claim_C10_cex :
    (CheckDistanceResults [((1 : ℚ), "q"), (1, "r")]
        [((1 : ℚ), "a"), (1, "a")] 2 10 0).result = true ∧
    (CheckDistanceResults [((1 : ℚ), "q"), (1, "r")] [((1 : ℚ), "a")]
        2 10 0).result = false ∧
    ((1 : ℚ), "a") ∉ [((1 : ℚ), "q"), (1, "r")] := by
  refine ⟨?_, ?_, ?_⟩ <;>
    norm_num [CheckDistanceResults, CheckResultSet, limitFor, sizeLtMaxSize,
      countEq, distinctCount, isSortedByFirst, kMaxPruningError, List.dedup,
      List.all_cons, List.countP_cons, List.countP_nil, List.getLast?] <;>
    decide

/-- Claim C10, amended: provided duplicating the pair leaves the
Missing-direction coverage limit unchanged (the counterexample shows the
claim fails when the duplication flips the size-cap branch), a pair `p`
occurring twice in `a2` and once in the otherwise identical `a1` changes
the returned boolean only when `p` occurs in `expected` with distance
strictly below that limit; in that case the exactly-once count makes the
Missing direction fail; a duplicated pair at or above the limit, or absent
from `expected`, leaves the returned boolean unchanged. -/
theorem claim_C10_thm (expected a2 a1 : List (ℚ × Id)) (p : ℚ × Id)
    (ms : Int) (md me : ℚ)
    (h2 : countEq a2 p = 2) (h1 : countEq a1 p = 1)
    (hother : ∀ q, q ≠ p → countEq a2 q = countEq a1 q)
    (hlim : limitFor a2 ms md me kMaxPruningError
      = limitFor a1 ms md me kMaxPruningError) :
    ((CheckDistanceResults expected a2 ms md me).result
        ≠ (CheckDistanceResults expected a1 ms md me).result →
      p ∈ expected ∧ p.1 < limitFor a1 ms md me kMaxPruningError) ∧
    (p ∈ expected → p.1 < limitFor a1 ms md me kMaxPruningError →
      (CheckResultSet a2 expected ms md me kMaxPruningError
        "Missing").result = false) ∧
    (¬ (p ∈ expected ∧ p.1 < limitFor a1 ms md me kMaxPruningError) →
      (CheckDistanceResults expected a2 ms md me).result
        = (CheckDistanceResults expected a1 ms md me).result) := by
  have hmem : ∀ q, q ∈ a2 ↔ q ∈ a1 := by
    intro q
    by_cases hq : q = p
    · subst hq
      rw [mem_iff_countEq_pos, mem_iff_countEq_pos, h1, h2]
      norm_num
    · rw [mem_iff_countEq_pos, mem_iff_countEq_pos, hother q hq]
  have hExtra : (CheckResultSet expected a2 ms md me 0 "Extra").result
      = (CheckResultSet expected a1 ms md me 0 "Extra").result := by
    rw [Bool.eq_iff_iff, checkResultSet_result_iff, checkResultSet_result_iff]
    constructor
    · intro h q hq
      exact h q ((hmem q).mpr hq)
    · intro h q hq
      exact h q ((hmem q).mp hq)
  have hMiss2 : (CheckResultSet a2 expected ms md me kMaxPruningError
      "Missing").result = true ↔
      ((CheckResultSet a1 expected ms md me kMaxPruningError
          "Missing").result = true ∧
       ¬ (p ∈ expected ∧ p.1 < limitFor a1 ms md me kMaxPruningError)) := by
    rw [checkResultSet_result_iff, checkResultSet_result_iff, hlim]
    constructor
    · intro h
      have hnc : ¬ (p ∈ expected ∧
          p.1 < limitFor a1 ms md me kMaxPruningError) := by
        rintro ⟨hpe, hplt⟩
        have := h p hpe hplt
        rw [h2] at this
        exact absurd this (by decide)
      refine ⟨?_, hnc⟩
      intro q hq hlt
      by_cases hqp : q = p
      · exact absurd ⟨hqp ▸ hq, hqp ▸ hlt⟩ hnc
      · rw [← hother q hqp]
        exact h q hq hlt
    · rintro ⟨h, hnc⟩
      intro q hq hlt
      by_cases hqp : q = p
      · exact absurd ⟨hqp ▸ hq, hqp ▸ hlt⟩ hnc
      · rw [hother q hqp]
        exact h q hq hlt
  have heq : ¬ (p ∈ expected ∧
      p.1 < limitFor a1 ms md me kMaxPruningError) →
      (CheckDistanceResults expected a2 ms md me).result
        = (CheckDistanceResults expected a1 ms md me).result := by
    intro hnc
    rw [cdr_result, cdr_result, hExtra]
    have : (CheckResultSet a2 expected ms md me kMaxPruningError
        "Missing").result
        = (CheckResultSet a1 expected ms md me kMaxPruningError
          "Missing").result := by
      rw [Bool.eq_iff_iff, hMiss2]
      constructor
      · exact fun h => h.1
      · exact fun h => ⟨h, hnc⟩
    rw [this]
  refine ⟨?_, ?_, heq⟩
  · intro hne
    by_contra hnc
    exact hne (heq hnc)
  · intro hpe hplt
    rw [Bool.eq_false_iff]
    intro h
    exact (hMiss2.mp h).2 ⟨hpe, hplt⟩

/-- Witness for the amended C10 at `expected = [(1,"a")]`,
`a2 = [(1,"a"),(1,"a")]`, `a1 = [(1,"a")]`, `p = (1,"a")`,
`max_size = 5` (so both runs take the uncapped branch and share the same
limit). -/
theorem claim_C10_witness :
    ((CheckDistanceResults [((1 : ℚ), "a")] [((1 : ℚ), "a"), (1, "a")]
          5 10 0).result
        ≠ (CheckDistanceResults [((1 : ℚ), "a")] [((1 : ℚ), "a")]
          5 10 0).result →
      ((1 : ℚ), "a") ∈ [((1 : ℚ), "a")] ∧
        (1 : ℚ) < limitFor [((1 : ℚ), "a")] 5 10 0 kMaxPruningError) ∧
    (((1 : ℚ), "a") ∈ [((1 : ℚ), "a")] →
      (1 : ℚ) < limitFor [((1 : ℚ), "a")] 5 10 0 kMaxPruningError →
      (CheckResultSet [((1 : ℚ), "a"), (1, "a")] [((1 : ℚ), "a")] 5 10 0
        kMaxPruningError "Missing").result = false) ∧
    (¬ (((1 : ℚ), "a") ∈ [((1 : ℚ), "a")] ∧
        (1 : ℚ) < limitFor [((1 : ℚ), "a")] 5 10 0 kMaxPruningError) →
      (CheckDistanceResults [((1 : ℚ), "a")] [((1 : ℚ), "a"), (1, "a")]
          5 10 0).result
        = (CheckDistanceResults [((1 : ℚ), "a")] [((1 : ℚ), "a")]
          5 10 0).result) :=
  claim_C10_thm [((1 : ℚ), "a")] [((1 : ℚ), "a"), (1, "a")]
    [((1 : ℚ), "a")] ((1 : ℚ), "a") 5 10 0
    (by norm_num [countEq, List.countP_cons, List.countP_nil])
    (by norm_num [countEq, List.countP_cons, List.countP_nil])
    (fun q hq => by
      simp [countEq, List.countP_cons, List.countP_nil, Ne.symm hq])
    (by norm_num [limitFor, sizeLtMaxSize, kMaxPruningError])

end S2Check

namespace S2Random

/-- Claim C7: two random source instances, in whatever prior states, on
which `Reset` is called with the same 32-bit seed produce identical
sequences of return values for any identical subsequent sequence of draw
calls. -/
theorem claim_C7 (seed : Int) (st1 st2 : State) (calls : List Call) :
    run (reset st1 seed) calls = run (reset st2 seed) calls := rfl

end S2Random
